import Mathlib

/- Verification of the frame-gating loop of detect.py: the change gate
(get_mse, lines 144-149), the fps state (lines 27-29, 64, 85-88) and the
orchestrator loop body of run() (lines 60-100). Machine integers are
modelled as Nat with explicit % 256 where uint8 arithmetic wraps; Python
exceptions are modelled as explicit error results. -/

/-- Kinds of uncaught Python exception the embedded code can raise. -/
inductive PyErr : Type where
  | nameError      -- `np` is not defined: the module never imports numpy
  | valueError     -- tuple unpacking `h, w = img1.shape` on a non-2-D shape
  | cvError        -- cv2.subtract applied to frames of mismatched geometry
  | unboundLocal   -- the local `mse` read before any assignment (line 77)
  | zeroDivision   -- division by a zero elapsed time or zero pixel count
  deriving DecidableEq, Repr

/-- A frame: a numpy-style array with a shape vector and flattened uint8
pixel data (each entry intended < 256). -/
structure Img : Type where
  shape : List Nat
  data : List Nat
  deriving DecidableEq, Repr

/-- Shallow embedding of `get_mse` (detect.py lines 144-149) as the module
actually executes it: `h, w = img1.shape` raises ValueError unless the shape
has exactly two components; `cv2.subtract` raises unless the geometries
agree; and `np.sum` then raises NameError on every remaining input because
the module never imports numpy, so the name `np` is unbound. -/
def get_mse (img1 img2 : Img) : Except PyErr Rat :=
  match img1.shape with
  | [_, _] =>
      if img1.shape = img2.shape then .error .nameError else .error .cvError
  | _ => .error .valueError

/-- The arithmetic written in `get_mse` as it would execute were `np` bound
to numpy: `cv2.subtract` performs saturating uint8 subtraction (clamped at
0, which on Nat is truncated subtraction), `diff**2` squares in uint8 and
wraps modulo 256, `np.sum` accumulates the uint8 entries in a wide integer,
and the result is that sum divided by h*w (ZeroDivisionError when h*w = 0,
since `err/float(0)` raises). -/
def get_mse_np (img1 img2 : Img) : Except PyErr Rat :=
  match img1.shape with
  | [h, w] =>
      if img1.shape = img2.shape then
        let diff : List Nat := List.zipWith (fun a b => a - b) img1.data img2.data
        let err : Nat := (diff.map (fun d => d * d % 256)).sum
        if h * w = 0 then .error .zeroDivision
        else .ok ((err : Rat) / ((h * w : Nat) : Rat))
      else .error .cvError
  | _ => .error .valueError

/-- Spec-side score, following the spec's words (section 4.1, numeric
semantics): "squared-difference sum divided by total pixel count (h x w)",
with exact integer differences and an accumulator wide enough that 8-bit
squared per-pixel differences cannot overflow. Declared only to compare the
intended score with what the code computes. -/
def spec_mse (img1 img2 : Img) : Rat :=
  match img1.shape with
  | [h, w] =>
      let s : Int := (List.zipWith (fun a b => ((a : Int) - (b : Int)) ^ 2)
        img1.data img2.data).sum
      (s : Rat) / ((h * w : Nat) : Rat)
  | _ => 0

/-- The mutable locals of `run` that the loop body reads or writes: the
frame history `img_list` (line 58), the Python local `mse` (None models
"not yet assigned"; it is first assigned at line 74), the fps counter and
fps value (line 28) and the window start time (line 29). -/
structure LoopState : Type where
  img_list : List Img
  mse : Option Rat
  counter : Nat
  fps : Rat
  start_time : Rat
  deriving DecidableEq, Repr

/-- What one completed loop cycle did: whether the detector ran (line 79)
and whether a result was emitted to the sink (line 100). -/
structure CycleEvent : Type where
  detected : Bool
  emitted : Bool
  deriving DecidableEq, Repr

/-- Result of one loop iteration: a new state plus the cycle's events, or
an uncaught Python exception together with the value of `img_list` at the
moment of the raise. -/
inductive StepResult : Type where
  | ok : LoopState → CycleEvent → StepResult
  | err : PyErr → List Img → StepResult
  deriving DecidableEq, Repr

/-- The fps averaging window size (line 47). -/
def fps_avg_frame_count : Nat := 10

/-- Lines 77-100 of `run`: gate on `mse != 0`. Reading `mse` before any
assignment raises UnboundLocalError. On PASS (`mse != 0`) the detector
runs, then when the incremented counter is a multiple of
`fps_avg_frame_count` the fps value is recomputed as the window size
divided by the elapsed time read at line 86 (`tEnd`) — ZeroDivisionError
when the elapsed time is zero — and the window start is reset to the fresh
clock read of line 88 (`tReset`); finally the result is emitted (line 100).
On BLOCK (`mse == 0`) the body is skipped entirely. -/
def runGate (tEnd tReset : Rat) (lst : List Img) (mseV : Option Rat)
    (counter : Nat) (fps start_time : Rat) : StepResult :=
  match mseV with
  | none => .err .unboundLocal lst
  | some m =>
      if m = 0 then .ok ⟨lst, some m, counter, fps, start_time⟩ ⟨false, false⟩
      else
        if counter % fps_avg_frame_count = 0 then
          if tEnd - start_time = 0 then .err .zeroDivision lst
          else .ok ⟨lst, some m, counter,
            (fps_avg_frame_count : Rat) / (tEnd - start_time), tReset⟩
            ⟨true, true⟩
        else .ok ⟨lst, some m, counter, fps, start_time⟩ ⟨true, true⟩

/-- One iteration of the `while True` loop of `run` (lines 60-100), with
the score function a parameter so the orchestration can be stated for any
gate scoring (`stepRun` instantiates it with the module's `get_mse`):
increment `counter` (line 64), append the converted frame to `img_list`
(line 72), when the history now holds more than one frame compute the score
of its first two entries and evict the oldest (lines 73-75), then gate and
possibly detect, refresh fps and emit (lines 77-100). -/
def stepRunWith (mseOf : Img → Img → Except PyErr Rat) (tEnd tReset : Rat)
    (frame : Img) (s : LoopState) : StepResult :=
  match s.img_list ++ [frame] with
  | a :: b :: rest =>
      match mseOf a b with
      | .error e => .err e (a :: b :: rest)
      | .ok m =>
          runGate tEnd tReset (b :: rest) (some m) (s.counter + 1)
            s.fps s.start_time
  | lst => runGate tEnd tReset lst s.mse (s.counter + 1) s.fps s.start_time

/-- The loop iteration exactly as the module runs it, scored by `get_mse`. -/
def stepRun : Rat → Rat → Img → LoopState → StepResult :=
  stepRunWith get_mse

/-- The state at loop entry (lines 27-29, 58): empty history, `mse` not yet
assigned, counter 0, fps 0, `start_time` the clock read of line 29. -/
def initState (t0 : Rat) : LoopState := ⟨[], none, 0, 0, t0⟩

/-- Run the loop over a finite list of inputs (per cycle: the two clock
reads of lines 86 and 88 and the captured frame), stopping at the first
uncaught exception, which carries `img_list` at the raise. -/
def runLoop (mseOf : Img → Img → Except PyErr Rat) :
    List (Rat × Rat × Img) → LoopState → Except (PyErr × List Img) LoopState
  | [], s => .ok s
  | (tE, tR, f) :: rest, s =>
      match stepRunWith mseOf tE tR f s with
      | .ok s' _ => runLoop mseOf rest s'
      | .err e h => .error (e, h)

/-- A 1x1 frame with the single pixel 0. -/
def imgA : Img := ⟨[1, 1], [0]⟩

/-- A 1x1 frame with the single pixel 1. -/
def imgB : Img := ⟨[1, 1], [1]⟩

/-- A 1x1 frame with the single pixel 5. -/
def imgC : Img := ⟨[1, 1], [5]⟩

/-- A 1x1 frame with the single pixel 16. -/
def imgD : Img := ⟨[1, 1], [16]⟩

/-- A 2x2 3-channel frame, the geometry the loop's RGB conversion makes. -/
def img3 : Img := ⟨[2, 2, 3], List.replicate 12 0⟩

/-- A 2x1 frame, geometry mismatched against the 1x1 frames. -/
def imgW : Img := ⟨[2, 1], [0, 0]⟩

/-- The literal reading of claim C3 on the loop body: a completed cycle
whose gate decision was BLOCK (no detection) changes none of the fps state
— counter, fps value and window start — and emits nothing. -/
def blockLeavesFpsStateUnchanged : Prop :=
  ∀ (tE tR : Rat) (f : Img) (s s' : LoopState) (ev : CycleEvent),
    stepRun tE tR f s = .ok s' ev → ev.detected = false →
    s'.counter = s.counter ∧ s'.fps = s.fps ∧
    s'.start_time = s.start_time ∧ ev.emitted = false

/-- The literal reading of claim C9: feeding a frame whose geometry
mismatches the single retained frame raises an error and leaves the frame
history exactly as it was. -/
def geometryMismatchLeavesHistoryUnchanged : Prop :=
  ∀ (tE tR : Rat) (A f : Img) (s : LoopState),
    s.img_list = [A] → A.shape ≠ f.shape →
    ∃ e, stepRun tE tR f s = .err e s.img_list

/-- Claim C1, evaluated at the failing input: with history frame [[0]] and
new frame [[1]] (same geometry, one differing pixel) the spec's score is
1 > 0 and the gate should PASS, but `get_mse` raises NameError (`np` is
unbound) so the loop cycle dies; and even the numpy-repaired arithmetic
yields score 0 (cv2.subtract saturates 0 - 1 to 0), which would BLOCK. -/
theorem C1_differing_pair_crashes_not_pass :
    spec_mse imgA imgB = 1 ∧
    get_mse imgA imgB = .error .nameError ∧
    get_mse_np imgA imgB = .ok 0 ∧
    stepRun 0 1 imgB ⟨[imgA], none, 0, 0, 0⟩ =
      .err .nameError [imgA, imgB] := by
  refine ⟨by norm_num [spec_mse, imgA, imgB], rfl,
    by norm_num [get_mse_np, imgA, imgB], rfl⟩

/-- Claim C2, evaluated at the failing input: observing the frame [[5]]
twice should give score exactly 0 and BLOCK, but `get_mse` raises NameError
before any score is produced, so the cycle dies instead of blocking; the
numpy-repaired arithmetic would indeed give 0. -/
theorem C2_identical_pair_crashes_not_block :
    get_mse imgC imgC = .error .nameError ∧
    get_mse_np imgC imgC = .ok 0 ∧
    stepRun 0 1 imgC ⟨[imgC], none, 1, 0, 0⟩ =
      .err .nameError [imgC, imgC] := by
  refine ⟨rfl, by norm_num [get_mse_np, imgC], rfl⟩

/-- Claim C4, evaluated at the failing input: for img1 = [[16]] and
img2 = [[0]] the spec's score is 16^2 = 256 accumulated without overflow,
but the code raises NameError (`np` unbound), and the arithmetic it spells
out squares the saturated difference in uint8, wrapping 16^2 = 256 to 0
before the wide summation, so its score would be 0 rather than 256. -/
theorem C4_uint8_square_wraps_before_sum :
    spec_mse imgD imgA = 256 ∧
    get_mse_np imgD imgA = .ok 0 ∧
    get_mse imgD imgA = .error .nameError := by
  refine ⟨by norm_num [spec_mse, imgD, imgA],
    by norm_num [get_mse_np, imgD, imgA], rfl⟩

/-- Claim C5, evaluated at the failing input: for A = [[0]] and B = [[5]]
the score should be symmetric, but `get_mse` never returns a score at all
(NameError in both orders), and the arithmetic it spells out is asymmetric
because cv2.subtract saturates at 0: score(A,B) = 0 while score(B,A) = 25. -/
theorem C5_score_not_symmetric :
    get_mse_np imgA imgC = .ok 0 ∧
    get_mse_np imgC imgA = .ok 25 ∧
    get_mse imgA imgC = .error .nameError ∧
    get_mse imgC imgA = .error .nameError := by
  refine ⟨by norm_num [get_mse_np, imgA, imgC],
    by norm_num [get_mse_np, imgA, imgC], rfl, rfl⟩

/-- Claim C6, evaluated on the code: on the very first captured frame the
cycle should behave as BLOCK and proceed safely, but the local `mse` has
not been assigned (it is only assigned when the history holds two frames),
so `if mse != 0:` raises UnboundLocalError and the loop dies, for every
first frame and clock reading. -/
theorem C6_first_frame_raises_unbound_local :
    ∀ (t0 tE tR : Rat) (f : Img),
      stepRun tE tR f (initState t0) = .err .unboundLocal [f] := by
  intro t0 tE tR f
  rfl

/-- Reduction of the loop body when the history is empty: only the new
frame is appended and no score is computed. -/
theorem stepRunWith_nil {mseOf : Img → Img → Except PyErr Rat}
    {tE tR : Rat} {f : Img} {s : LoopState} (hl : s.img_list = []) :
    stepRunWith mseOf tE tR f s =
      runGate tE tR [f] s.mse (s.counter + 1) s.fps s.start_time := by
  unfold stepRunWith
  rw [hl]
  rfl

/-- Reduction of the loop body when the history holds one frame: the score
of the retained frame and the new frame is computed and the retained frame
is evicted. -/
theorem stepRunWith_one {mseOf : Img → Img → Except PyErr Rat}
    {tE tR : Rat} {f a : Img} {s : LoopState} (hl : s.img_list = [a]) :
    stepRunWith mseOf tE tR f s =
      match mseOf a f with
      | .error e => .err e [a, f]
      | .ok m =>
          runGate tE tR [f] (some m) (s.counter + 1) s.fps s.start_time := by
  unfold stepRunWith
  rw [hl]
  rfl

/-- Reduction of the loop body when the history holds two or more frames. -/
theorem stepRunWith_cons2 {mseOf : Img → Img → Except PyErr Rat}
    {tE tR : Rat} {f a x : Img} {xs : List Img} {s : LoopState}
    (hl : s.img_list = a :: x :: xs) :
    stepRunWith mseOf tE tR f s =
      match mseOf a x with
      | .error e => .err e (a :: x :: (xs ++ [f]))
      | .ok m =>
          runGate tE tR (x :: (xs ++ [f])) (some m) (s.counter + 1)
            s.fps s.start_time := by
  unfold stepRunWith
  rw [hl]
  rfl

/-- Reduction of the gate when `mse` holds a value. -/
theorem runGate_some {tE tR : Rat} {lst : List Img} {m : Rat} {c : Nat}
    {fp st : Rat} :
    runGate tE tR lst (some m) c fp st =
      if m = 0 then .ok ⟨lst, some m, c, fp, st⟩ ⟨false, false⟩
      else
        if c % fps_avg_frame_count = 0 then
          if tE - st = 0 then .err .zeroDivision lst
          else .ok ⟨lst, some m, c,
            (fps_avg_frame_count : Rat) / (tE - st), tR⟩ ⟨true, true⟩
        else .ok ⟨lst, some m, c, fp, st⟩ ⟨true, true⟩ := rfl

/-- Inversion for successful gate outcomes: the history and counter are as
passed in, BLOCK cycles leave the fps value and window start untouched and
emit nothing, and PASS cycles refresh the fps value exactly when the
counter is a multiple of the window size. -/
theorem runGate_ok_inv {tE tR : Rat} {lst : List Img} {mseV : Option Rat}
    {c : Nat} {fp st : Rat} {s' : LoopState} {ev : CycleEvent}
    (h : runGate tE tR lst mseV c fp st = .ok s' ev) :
    s'.img_list = lst ∧ s'.counter = c ∧
    (ev.detected = false →
      ev.emitted = false ∧ s'.fps = fp ∧ s'.start_time = st) ∧
    (ev.detected = true →
      (c % fps_avg_frame_count = 0 →
        s'.fps = (fps_avg_frame_count : Rat) / (tE - st) ∧
        s'.start_time = tR) ∧
      (c % fps_avg_frame_count ≠ 0 → s'.fps = fp ∧ s'.start_time = st)) := by
  cases mseV with
  | none => exact StepResult.noConfusion h
  | some m =>
    rw [runGate_some] at h
    by_cases hm : m = 0
    · rw [if_pos hm] at h
      injection h with h1 h2
      subst h1
      subst h2
      simp
    · rw [if_neg hm] at h
      by_cases hc : c % fps_avg_frame_count = 0
      · rw [if_pos hc] at h
        by_cases ht : tE - st = 0
        · rw [if_pos ht] at h
          exact StepResult.noConfusion h
        · rw [if_neg ht] at h
          injection h with h1 h2
          subst h1
          subst h2
          simp [hc]
      · rw [if_neg hc] at h
        injection h with h1 h2
        subst h1
        subst h2
        simp [hc]

/-- Inversion for gate errors: the history carried by the exception is the
history the gate was given. -/
theorem runGate_err_inv {tE tR : Rat} {lst : List Img} {mseV : Option Rat}
    {c : Nat} {fp st : Rat} {e : PyErr} {hst : List Img}
    (he : runGate tE tR lst mseV c fp st = .err e hst) : hst = lst := by
  cases mseV with
  | none =>
    injection he with h1 h2
    exact h2.symm
  | some m =>
    rw [runGate_some] at he
    by_cases hm : m = 0
    · rw [if_pos hm] at he
      exact StepResult.noConfusion he
    · rw [if_neg hm] at he
      by_cases hc : c % fps_avg_frame_count = 0
      · rw [if_pos hc] at he
        by_cases ht : tE - st = 0
        · rw [if_pos ht] at he
          injection he with h1 h2
          exact h2.symm
        · rw [if_neg ht] at he
          exact StepResult.noConfusion he
      · rw [if_neg hc] at he
        exact StepResult.noConfusion he

/-- Every successful loop iteration went through the gate with the
incremented counter and the incoming fps state. -/
theorem stepRunWith_ok_runGate {mseOf : Img → Img → Except PyErr Rat}
    {tE tR : Rat} {f : Img} {s s' : LoopState} {ev : CycleEvent}
    (h : stepRunWith mseOf tE tR f s = .ok s' ev) :
    ∃ lst mseV,
      runGate tE tR lst mseV (s.counter + 1) s.fps s.start_time =
        .ok s' ev := by
  rcases hl : s.img_list with _ | ⟨a, _ | ⟨x, xs⟩⟩
  · rw [stepRunWith_nil hl] at h
    exact ⟨_, _, h⟩
  · rw [stepRunWith_one hl] at h
    cases hm : mseOf a f with
    | error e => rw [hm] at h; exact StepResult.noConfusion h
    | ok m => rw [hm] at h; exact ⟨_, _, h⟩
  · rw [stepRunWith_cons2 hl] at h
    cases hm : mseOf a x with
    | error e => rw [hm] at h; exact StepResult.noConfusion h
    | ok m => rw [hm] at h; exact ⟨_, _, h⟩

/-- Claim C3 as stated is false: a BLOCK cycle does not leave all fps state
unchanged. Concretely, a cycle gated on score 0 still executes line 64, so
the counter that drives the fps averaging window advances from 0 to 1. -/
theorem C3_counter_ticks_on_blocked_cycle : ¬ blockLeavesFpsStateUnchanged := by
  intro hcl
  have h := (hcl 0 1 imgA ⟨[], some 0, 0, 0, 0⟩ ⟨[imgA], some 0, 1, 0, 0⟩
    ⟨false, false⟩ rfl rfl).1
  exact absurd h (by decide)

/-- Claim C3 amended: a completed BLOCK cycle runs no detection, emits
nothing to the sink and leaves the fps value and the window start
unchanged, proceeding to the next capture — but the counter driving the
fps averaging window increments on this cycle as on every captured frame. -/
theorem C3_blocked_cycle_behaviour :
    ∀ (mseOf : Img → Img → Except PyErr Rat) (tE tR : Rat) (f : Img)
      (s s' : LoopState) (ev : CycleEvent),
      stepRunWith mseOf tE tR f s = .ok s' ev → ev.detected = false →
      ev.emitted = false ∧ s'.fps = s.fps ∧ s'.start_time = s.start_time ∧
      s'.counter = s.counter + 1 := by
  intro mseOf tE tR f s s' ev h hdet
  obtain ⟨lst, mseV, hg⟩ := stepRunWith_ok_runGate h
  obtain ⟨-, hc, hblock, -⟩ := runGate_ok_inv hg
  obtain ⟨he, hf, hs⟩ := hblock hdet
  exact ⟨he, hf, hs, hc⟩

/-- Witness for the amended claim C3, at a concrete blocked cycle. -/
theorem C3_blocked_cycle_behaviour_witness :
    (⟨false, false⟩ : CycleEvent).emitted = false ∧
    (⟨[imgA], some 0, 1, 0, 0⟩ : LoopState).fps =
      (⟨[], some 0, 0, 0, 0⟩ : LoopState).fps ∧
    (⟨[imgA], some 0, 1, 0, 0⟩ : LoopState).start_time =
      (⟨[], some 0, 0, 0, 0⟩ : LoopState).start_time ∧
    (⟨[imgA], some 0, 1, 0, 0⟩ : LoopState).counter =
      (⟨[], some 0, 0, 0, 0⟩ : LoopState).counter + 1 :=
  C3_blocked_cycle_behaviour get_mse 0 1 imgA ⟨[], some 0, 0, 0, 0⟩
    ⟨[imgA], some 0, 1, 0, 0⟩ ⟨false, false⟩ rfl rfl

/-- Claim C7: the fps value starts at 0, and on every cycle that reaches
the fps stage (a detected cycle) the counter has advanced by one and the
fps value is recomputed as the window size divided by the time elapsed
since the window start — with the window start reset to the fresh clock
read — exactly when the advanced counter is a multiple of the window size
`fps_avg_frame_count` = 10, and is left unchanged otherwise. -/
theorem C7_fps_refresh_behaviour :
    (∀ t0 : Rat, (initState t0).fps = 0) ∧
    (∀ (mseOf : Img → Img → Except PyErr Rat) (tE tR : Rat) (f : Img)
      (s s' : LoopState) (ev : CycleEvent),
      stepRunWith mseOf tE tR f s = .ok s' ev → ev.detected = true →
      s'.counter = s.counter + 1 ∧
      ((s.counter + 1) % fps_avg_frame_count = 0 →
        s'.fps = (fps_avg_frame_count : Rat) / (tE - s.start_time) ∧
        s'.start_time = tR) ∧
      ((s.counter + 1) % fps_avg_frame_count ≠ 0 →
        s'.fps = s.fps ∧ s'.start_time = s.start_time)) := by
  constructor
  · intro t0
    rfl
  · intro mseOf tE tR f s s' ev h hdet
    obtain ⟨lst, mseV, hg⟩ := stepRunWith_ok_runGate h
    obtain ⟨-, hc, -, hpass⟩ := runGate_ok_inv hg
    exact ⟨hc, (hpass hdet).1, (hpass hdet).2⟩

/-- Witness for claim C7, at a concrete detected cycle with counter 1
(no refresh due, fps value kept). -/
theorem C7_fps_refresh_behaviour_witness :
    (initState 0).fps = 0 ∧
    (⟨[imgA], some 1, 1, 0, 0⟩ : LoopState).counter =
      (⟨[], some 1, 0, 0, 0⟩ : LoopState).counter + 1 ∧
    (⟨[imgA], some 1, 1, 0, 0⟩ : LoopState).fps =
      (⟨[], some 1, 0, 0, 0⟩ : LoopState).fps ∧
    (⟨[imgA], some 1, 1, 0, 0⟩ : LoopState).start_time =
      (⟨[], some 1, 0, 0, 0⟩ : LoopState).start_time := by
  have h := C7_fps_refresh_behaviour
  have h2 := h.2 get_mse 2 3 imgA ⟨[], some 1, 0, 0, 0⟩
    ⟨[imgA], some 1, 1, 0, 0⟩ ⟨true, true⟩ rfl rfl
  exact ⟨h.1 0, h2.1, (h2.2.2 (by decide)).1, (h2.2.2 (by decide)).2⟩

/-- A successful cycle starting from a nonempty history evicts the oldest
entry: the new history is the appended list without its head. -/
theorem stepRunWith_ok_evicts {mseOf : Img → Img → Except PyErr Rat}
    {tE tR : Rat} {f : Img} {s s' : LoopState} {ev : CycleEvent}
    (h : stepRunWith mseOf tE tR f s = .ok s' ev) (hne : s.img_list ≠ []) :
    s'.img_list = (s.img_list ++ [f]).tail := by
  rcases hl : s.img_list with _ | ⟨a, _ | ⟨x, xs⟩⟩
  · exact absurd hl hne
  · rw [stepRunWith_one hl] at h
    cases hm : mseOf a f with
    | error e => rw [hm] at h; exact StepResult.noConfusion h
    | ok m =>
      rw [hm] at h
      have h1 := (runGate_ok_inv h).1
      simpa using h1
  · rw [stepRunWith_cons2 hl] at h
    cases hm : mseOf a x with
    | error e => rw [hm] at h; exact StepResult.noConfusion h
    | ok m =>
      rw [hm] at h
      have h1 := (runGate_ok_inv h).1
      simpa using h1

/-- A successful cycle keeps the history length at most 1 when it was at
most 1 before (the shape every reachable state has). -/
theorem stepRunWith_ok_len {mseOf : Img → Img → Except PyErr Rat}
    {tE tR : Rat} {f : Img} {s s' : LoopState} {ev : CycleEvent}
    (h : stepRunWith mseOf tE tR f s = .ok s' ev)
    (hs : s.img_list.length ≤ 1) : s'.img_list.length ≤ 1 := by
  rcases hl : s.img_list with _ | ⟨a, t⟩
  · rw [stepRunWith_nil hl] at h
    have h1 := (runGate_ok_inv h).1
    simp [h1]
  · have ht : t = [] := by
      rw [hl] at hs
      simp only [List.length_cons] at hs
      exact List.length_eq_zero.mp (by omega)
    subst ht
    rw [stepRunWith_one hl] at h
    cases hm : mseOf a f with
    | error e => rw [hm] at h; exact StepResult.noConfusion h
    | ok m =>
      rw [hm] at h
      have h1 := (runGate_ok_inv h).1
      simp [h1]

/-- A failing cycle starting from a history of length at most 1 dies with
at most 2 frames recorded in the history. -/
theorem stepRunWith_err_len {mseOf : Img → Img → Except PyErr Rat}
    {tE tR : Rat} {f : Img} {s : LoopState} {e : PyErr} {hst : List Img}
    (he : stepRunWith mseOf tE tR f s = .err e hst)
    (hs : s.img_list.length ≤ 1) : hst.length ≤ 2 := by
  rcases hl : s.img_list with _ | ⟨a, t⟩
  · rw [stepRunWith_nil hl] at he
    have h1 := runGate_err_inv he
    simp [h1]
  · have ht : t = [] := by
      rw [hl] at hs
      simp only [List.length_cons] at hs
      exact List.length_eq_zero.mp (by omega)
    subst ht
    rw [stepRunWith_one hl] at he
    cases hm : mseOf a f with
    | error e2 =>
      rw [hm] at he
      injection he with h1 h2
      rw [← h2]
      simp
    | ok m =>
      rw [hm] at he
      have h1 := runGate_err_inv he
      simp [h1]

/-- Over any run from a state whose history holds at most one frame, the
history stays at most 1 after every completed cycle and at most 2 at an
uncaught exception. -/
theorem runLoop_imgList_bounded (mseOf : Img → Img → Except PyErr Rat) :
    ∀ (inputs : List (Rat × Rat × Img)) (s : LoopState),
      s.img_list.length ≤ 1 →
      (∀ s', runLoop mseOf inputs s = .ok s' → s'.img_list.length ≤ 1) ∧
      (∀ e hst, runLoop mseOf inputs s = .error (e, hst) →
        hst.length ≤ 2) := by
  intro inputs
  induction inputs with
  | nil =>
    intro s hs
    constructor
    · intro s' h
      injection h with h1
      rw [← h1]
      exact hs
    · intro e hst h
      exact Except.noConfusion h
  | cons p rest ih =>
    intro s hs
    obtain ⟨tE, tR, f⟩ := p
    constructor
    · intro s' h
      unfold runLoop at h
      cases hstep : stepRunWith mseOf tE tR f s with
      | ok s1 ev =>
        rw [hstep] at h
        exact (ih s1 (stepRunWith_ok_len hstep hs)).1 s' h
      | err e1 h1 =>
        rw [hstep] at h
        exact Except.noConfusion h
    · intro e hst h
      unfold runLoop at h
      cases hstep : stepRunWith mseOf tE tR f s with
      | ok s1 ev =>
        rw [hstep] at h
        exact (ih s1 (stepRunWith_ok_len hstep hs)).2 e hst h
      | err e1 h1 =>
        rw [hstep] at h
        injection h with h2
        have h3 : h1 = hst := congrArg Prod.snd h2
        rw [← h3]
        exact stepRunWith_err_len hstep hs

/-- Claim C8: starting from the empty initial history, the frame history
never exceeds length 2 no matter how many frames are observed — after every
completed cycle its length is at most 2 (in fact at most 1), and even the
history recorded at an uncaught exception has length at most 2 — and
whenever a cycle completes with a nonempty prior history, the entry at
index 0 (the oldest) is the one evicted. -/
theorem C8_history_never_exceeds_two :
    (∀ (mseOf : Img → Img → Except PyErr Rat)
      (inputs : List (Rat × Rat × Img)) (t0 : Rat),
      (∀ s', runLoop mseOf inputs (initState t0) = .ok s' →
        s'.img_list.length ≤ 2) ∧
      (∀ e hst, runLoop mseOf inputs (initState t0) = .error (e, hst) →
        hst.length ≤ 2)) ∧
    (∀ (mseOf : Img → Img → Except PyErr Rat) (tE tR : Rat) (f : Img)
      (s s' : LoopState) (ev : CycleEvent),
      stepRunWith mseOf tE tR f s = .ok s' ev → s.img_list ≠ [] →
      s'.img_list = (s.img_list ++ [f]).tail) := by
  constructor
  · intro mseOf inputs t0
    have h := runLoop_imgList_bounded mseOf inputs (initState t0)
      (by simp [initState])
    exact ⟨fun s' hs' => le_trans (h.1 s' hs') (by norm_num), h.2⟩
  · intro mseOf tE tR f s s' ev h hne
    exact stepRunWith_ok_evicts h hne

/-- Witness for claim C8: the empty run keeps the initial empty history,
and a concrete completed cycle from history [imgA] evicts imgA. -/
theorem C8_history_never_exceeds_two_witness :
    (initState 0).img_list.length ≤ 2 ∧
    (⟨[imgB], some 0, 1, 0, 0⟩ : LoopState).img_list =
      (([imgA] : List Img) ++ [imgB]).tail := by
  constructor
  · exact (C8_history_never_exceeds_two.1 get_mse [] 0).1 (initState 0) rfl
  · exact C8_history_never_exceeds_two.2 (fun _ _ => .ok 0) 0 1 imgB
      ⟨[imgA], none, 0, 0, 0⟩ ⟨[imgB], some 0, 1, 0, 0⟩ ⟨false, false⟩ rfl
      (by simp)

/-- The function `get_mse` never returns a score: every input ends in one
of the three exceptions (shape unpacking, geometry mismatch, or the
unbound name `np`). -/
theorem get_mse_isError (img1 img2 : Img) :
    ∃ e, get_mse img1 img2 = .error e := by
  unfold get_mse
  split
  · split
    · exact ⟨_, rfl⟩
    · exact ⟨_, rfl⟩
  · exact ⟨_, rfl⟩

/-- Claim C9 as stated is false: feeding the 2x1 frame after the retained
1x1 frame does raise an error, but the history at the raise is not the
prior history — the mismatched frame has been appended. -/
theorem C9_mismatch_mutates_history :
    ¬ geometryMismatchLeavesHistoryUnchanged := by
  intro hcl
  obtain ⟨e, he⟩ := hcl 0 1 imgA imgW ⟨[imgA], none, 0, 0, 0⟩ rfl (by decide)
  rw [show stepRun 0 1 imgW ⟨[imgA], none, 0, 0, 0⟩ =
    .err .cvError [imgA, imgW] from rfl] at he
  injection he with h1 h2
  exact absurd h2 (by decide)

/-- Claim C9 amended: feeding a frame whose geometry mismatches the single
retained frame makes the score computation raise an uncaught error before
any detection — a cv2 error from the subtraction when the retained frame is
2-D, the shape-unpacking ValueError otherwise (in particular for the loop's
own 3-channel frames) — and the frame history at the raise has been
mutated: the mismatched frame was appended and no eviction happened. -/
theorem C9_mismatch_raises_after_append :
    ∀ (tE tR : Rat) (A f : Img) (s : LoopState),
      s.img_list = [A] → A.shape ≠ f.shape →
      (A.shape.length = 2 →
        stepRun tE tR f s = .err .cvError (s.img_list ++ [f])) ∧
      (A.shape.length ≠ 2 →
        stepRun tE tR f s = .err .valueError (s.img_list ++ [f])) := by
  intro tE tR A f s hl hsh
  have hg2 : A.shape.length = 2 → get_mse A f = .error .cvError := by
    intro h2
    unfold get_mse
    rcases hA : A.shape with _ | ⟨a, _ | ⟨b, _ | ⟨c, t⟩⟩⟩
    · rw [hA] at h2; simp at h2
    · rw [hA] at h2; simp at h2
    · rw [if_neg (hA ▸ hsh)]
    · rw [hA] at h2; simp at h2
  have hgn : A.shape.length ≠ 2 → get_mse A f = .error .valueError := by
    intro h2
    unfold get_mse
    rcases hA : A.shape with _ | ⟨a, _ | ⟨b, _ | ⟨c, t⟩⟩⟩
    · rfl
    · rfl
    · rw [hA] at h2; simp at h2
    · rfl
  rw [hl]
  constructor
  · intro h2
    unfold stepRun
    rw [stepRunWith_one hl, hg2 h2]
    rfl
  · intro h2
    unfold stepRun
    rw [stepRunWith_one hl, hgn h2]
    rfl

/-- Witness for the amended claim C9, at the concrete mismatched pair. -/
theorem C9_mismatch_raises_after_append_witness :
    stepRun 0 1 imgW ⟨[imgA], none, 0, 0, 0⟩ =
      .err .cvError (([imgA] : List Img) ++ [imgW]) := by
  have h := (C9_mismatch_raises_after_append 0 1 imgA imgW
    ⟨[imgA], none, 0, 0, 0⟩ rfl (by decide)).1 rfl
  simpa using h

/-- Claim C10: `get_mse` raises an exception on every pair of inputs
instead of returning a score — specifically the shape-unpacking ValueError
whenever the first image is 3-channel (as every frame the loop stores is),
and the NameError from the unbound `np` for same-geometry 2-D inputs — and
consequently no loop cycle whose history already holds a frame (so that the
history reaches two frames and `get_mse` is called) can complete normally. -/
theorem C10_get_mse_always_raises :
    (∀ img1 img2 : Img, ∃ e, get_mse img1 img2 = .error e) ∧
    (∀ img1 img2 : Img, img1.shape.length = 3 →
      get_mse img1 img2 = .error .valueError) ∧
    (∀ img1 img2 : Img, img1.shape.length = 2 → img1.shape = img2.shape →
      get_mse img1 img2 = .error .nameError) ∧
    (∀ (tE tR : Rat) (f : Img) (s s' : LoopState) (ev : CycleEvent),
      s.img_list ≠ [] → stepRun tE tR f s ≠ .ok s' ev) := by
  refine ⟨get_mse_isError, ?_, ?_, ?_⟩
  · intro img1 img2 h3
    unfold get_mse
    rcases hA : img1.shape with _ | ⟨a, _ | ⟨b, _ | ⟨c, _ | ⟨d, t⟩⟩⟩⟩
    · rfl
    · rfl
    · rw [hA] at h3; simp at h3
    · rfl
    · rfl
  · intro img1 img2 h2 heq
    unfold get_mse
    rcases hA : img1.shape with _ | ⟨a, _ | ⟨b, _ | ⟨c, t⟩⟩⟩
    · rw [hA] at h2; simp at h2
    · rw [hA] at h2; simp at h2
    · rw [if_pos (hA ▸ heq)]
    · rw [hA] at h2; simp at h2
  · intro tE tR f s s' ev hne hok
    unfold stepRun at hok
    rcases hl : s.img_list with _ | ⟨a, _ | ⟨x, xs⟩⟩
    · exact hne hl
    · rw [stepRunWith_one hl] at hok
      obtain ⟨e, he⟩ := get_mse_isError a f
      rw [he] at hok
      exact StepResult.noConfusion hok
    · rw [stepRunWith_cons2 hl] at hok
      obtain ⟨e, he⟩ := get_mse_isError a x
      rw [he] at hok
      exact StepResult.noConfusion hok

/-- Witness for claim C10, at concrete inputs: a 3-channel frame fails the
shape unpacking, a same-geometry 2-D pair reaches the unbound `np`, and a
concrete cycle with a retained frame does not complete. -/
theorem C10_get_mse_always_raises_witness :
    get_mse img3 img3 = .error .valueError ∧
    get_mse imgA imgA = .error .nameError ∧
    stepRun 0 1 imgA ⟨[imgA], none, 0, 0, 0⟩ ≠
      .ok (initState 0) ⟨false, false⟩ := by
  refine ⟨?_, ?_, ?_⟩
  · exact C10_get_mse_always_raises.2.1 img3 img3 rfl
  · exact C10_get_mse_always_raises.2.2.1 imgA imgA rfl rfl
  · exact C10_get_mse_always_raises.2.2.2 0 1 imgA ⟨[imgA], none, 0, 0, 0⟩
      (initState 0) ⟨false, false⟩ (by simp)
